import Mathlib

/-!
Verification of the caza2026 webhook intake backend.

Shallow embedding of the three source modules:
  * `main.py`        — the `POST /webhook` pipeline (`handle_webhook`), the PDF
    renderer (`generate_establishment_pdf` and its pure line-layout helpers),
    and `GET /establishments`;
  * `database.py`    — the `Establishment` row type and the store state;
  * `airtable_service.py` — `get_current_price` with its fallback policy.

External effects are made explicit:
  * the database is a value of type `DB` threaded through the pipeline; a
    successful `commit` is the only point at which `DB` changes, so a later
    `rollback` leaves committed rows untouched (SQLAlchemy semantics);
  * whether the INSERT's commit raises `IntegrityError` is derived from a
    `uniqueEnforced` flag plus the existing rows (the shipped `database.py`
    declares no unique constraints, i.e. `uniqueEnforced = false`);
  * the reportlab side effects of the renderer are split into (a) the returned
    path / `None` outcome, driven by a `PdfOutcome` parameter that says whether
    an exception occurs inside the renderer's `try`, and (b) pure functions
    computing the text lines drawn for the extra webhook fields;
  * Python exception flow inside `handle_webhook` is an `Except Exc` value:
    the endpoint's `except IntegrityError` / blanket `except Exception`
    dispatch is the final `match` in `handle_webhook`.
-/

/-- A value in the parsed webhook payload: Fluent Forms sends scalars (strings)
or ordered sequences of strings for multi-select fields. -/
inductive Val where
  | s (x : String)
  | l (xs : List String)
deriving DecidableEq, Repr

/-- The parsed request body (`data` in `handle_webhook`): an ordered key→value
mapping, from either the JSON body or `dict(form)`. -/
abbrev Payload := List (String × Val)

/-- `data.get(k)` on the payload dict. -/
def dict_get (d : Payload) (k : String) : Option Val :=
  d.lookup k

/-- Python truthiness of a payload value (`if not value` / `and value`):
an empty string and an empty list are falsy. -/
def valTruthy : Val → Bool
  | .s x => x != ""
  | .l xs => !xs.isEmpty

/-- Python truthiness of `data.get(k)`: `None` is falsy. -/
def optTruthy : Option Val → Bool
  | none => false
  | some v => valTruthy v

/-- The four required fields, in the insertion order of the
`establishment_data` dict built in `handle_webhook` (main.py:265-270). -/
def required_fields : List String := ["name", "owner_email", "cuit", "address"]

/-- `missing_fields = [field for field, value in establishment_data.items() if not value]`
(main.py:275). -/
def missingFields (data : Payload) : List String :=
  required_fields.filter (fun k => !optTruthy (dict_get data k))

/-- Single-quote character, used by Python `str()` on lists of strings. -/
def squote : String := String.singleton (Char.ofNat 39)

/-- Python `str(value)` as used at main.py:202 on webhook values: a string is
itself; a list of strings renders as its repr, elements wrapped in single
quotes, separated by comma-space, enclosed in brackets (faithful for strings
without embedded quotes or escapes, which is the webhook form-data domain). -/
def pyStr : Val → String
  | .s x => x
  | .l xs => "[" ++ String.intercalate ", " (xs.map (fun x => squote ++ x ++ squote)) ++ "]"

/-- JSON value serialization used by `json.dumps(data)` (main.py:286); the
exact encoding is irrelevant to the claims, only that the blob is stored. -/
def jsonVal : Val → String
  | .s x => "\"" ++ x ++ "\""
  | .l xs => "[" ++ String.intercalate ", " (xs.map (fun x => "\"" ++ x ++ "\"")) ++ "]"

/-- `json.dumps(data, ensure_ascii=False)` (main.py:286). -/
def jsonDumps (d : Payload) : String :=
  "\x7b" ++ String.intercalate ", " (d.map (fun kv => "\"" ++ kv.1 ++ "\": " ++ jsonVal kv.2)) ++ "\x7d"

/-- One row of the `establishments` table (database.py:23-34). The four core
columns are nullable strings; we keep the raw payload `Val` for them since no
format validation beyond truthiness happens before INSERT. -/
structure Establishment where
  id : Nat
  name : Option Val
  owner_email : Option Val
  cuit : Option Val
  address : Option Val
  payment_link : Option String
  pdf_path : Option String
  webhook_data : Option String
  created_at : String
deriving DecidableEq, Repr

/-- The establishment store: committed rows plus the next id the store will
assign on INSERT (`id` is the auto-increment primary key). -/
structure DB where
  rows : List Establishment
  nextId : Nat
deriving DecidableEq, Repr

/-- `EstablishmentSchema` (main.py:34-46): the pydantic response model used by
`GET /establishments`; note it includes `payment_link`, `pdf_path`,
`webhook_data` and `created_at`, not just the core fields. -/
structure EstablishmentSchema where
  id : Nat
  name : Option Val
  owner_email : Option Val
  cuit : Option Val
  address : Option Val
  payment_link : Option String
  pdf_path : Option String
  webhook_data : Option String
  created_at : Option String
deriving DecidableEq, Repr

/-- `EstablishmentSchema.model_validate(db_establishment)` /
`response_model=List[EstablishmentSchema]` serialization of a row: every
schema field is read off the ORM attributes. -/
def toSchema (e : Establishment) : EstablishmentSchema :=
  { id := e.id, name := e.name, owner_email := e.owner_email, cuit := e.cuit,
    address := e.address, payment_link := e.payment_link, pdf_path := e.pdf_path,
    webhook_data := e.webhook_data, created_at := some e.created_at }

/-- `EstablishmentResponse` (main.py:48-50): same fields as the schema; the
webhook success path constructs it with only id, the four core fields and
`pdf_path`, leaving the other optional fields at their `None` defaults. -/
structure EstablishmentResponse where
  id : Nat
  name : Option Val
  owner_email : Option Val
  cuit : Option Val
  address : Option Val
  payment_link : Option String
  pdf_path : Option String
  webhook_data : Option String
  created_at : Option String
deriving DecidableEq, Repr

/-- The ORM object built at main.py:284-287:
`Establishment(**establishment_data, webhook_data=json.dumps(data))`, with the
store-assigned id and server-side `created_at` it acquires on commit/refresh. -/
def mkRecord (data : Payload) (now : String) (db : DB) : Establishment :=
  { id := db.nextId,
    name := dict_get data "name",
    owner_email := dict_get data "owner_email",
    cuit := dict_get data "cuit",
    address := dict_get data "address",
    payment_link := none,
    pdf_path := none,
    webhook_data := some (jsonDumps data),
    created_at := now }

/-- Whether the first commit raises `IntegrityError`: only in a revision whose
schema enforces uniqueness (`uniqueEnforced`), when an existing row already
carries the same `owner_email` or `cuit`. The shipped database.py declares no
unique constraint on either column, i.e. `uniqueEnforced = false`. -/
def uniquenessViolation (uniqueEnforced : Bool) (db : DB) (rec : Establishment) : Bool :=
  uniqueEnforced && db.rows.any (fun r => r.owner_email == rec.owner_email || r.cuit == rec.cuit)

/-- Whether an exception occurs inside `generate_establishment_pdf`'s own
`try` block (main.py:133-242); `ok` means the canvas is saved and the file
name returned. -/
inductive PdfOutcome where
  | ok
  | exc (msg : String)
deriving DecidableEq, Repr

/-- `file_name = f"pdfs/registro_{establishment_data.id}.pdf"` (main.py:134). -/
def pdf_file_name (id : Nat) : String :=
  "pdfs/registro_" ++ toString id ++ ".pdf"

/-- `generate_establishment_pdf` result (main.py:129-242): on success it
returns the id-derived path; any exception inside its `try` is caught at
main.py:238 and turned into `None`. -/
def generate_establishment_pdf (ed : EstablishmentSchema) (outcome : PdfOutcome) : Option String :=
  match outcome with
  | .ok => some (pdf_file_name ed.id)
  | .exc _ => none

/-- Exceptions that can escape the endpoint's `try` body. -/
inductive Exc where
  | httpExc (status : Nat) (detail : String)
  | integrityError
deriving DecidableEq, Repr

/-- `str(e)`: starlette's `HTTPException.__str__` is `f"{status_code}: {detail}"`. -/
def strExc : Exc → String
  | .httpExc s d => toString s ++ ": " ++ d
  | .integrityError => "IntegrityError"

/-- The body of `handle_webhook`'s outer `try` (main.py:249-331), returning
either the successful response or the first escaping exception, together with
the durable store state (rows survive once committed; `rollback` only discards
an uncommitted INSERT).

`validateRaises` models an exception raised inside the inner `try` before the
renderer returns (e.g. by `model_validate`); a `None` return from the renderer
raises HTTPException(500, "Failed to generate PDF certificate") at
main.py:311, which the inner `except Exception` itself catches and re-raises
wrapped at main.py:319. -/
def webhookTry (data : Payload) (now : String) (uniqueEnforced : Bool)
    (pdfOutcome : PdfOutcome) (validateRaises : Option String) (db : DB) :
    Except Exc EstablishmentResponse × DB :=
  if (missingFields data).isEmpty then
    if uniquenessViolation uniqueEnforced db (mkRecord data now db) then
      -- db.add; db.commit() raises IntegrityError; except handler rolls the INSERT back
      (Except.error Exc.integrityError, db)
    else
      -- first commit succeeds: the row is durable from here on
      match validateRaises with
      | some msg =>
        (Except.error (Exc.httpExc 500 ("Failed to generate PDF: " ++ msg)),
         ⟨db.rows ++ [mkRecord data now db], db.nextId + 1⟩)
      | none =>
        match generate_establishment_pdf (toSchema (mkRecord data now db)) pdfOutcome with
        | some path =>
          -- second commit: pdf_path attached; response mirrors the row
          (Except.ok ⟨db.nextId, dict_get data "name", dict_get data "owner_email",
                      dict_get data "cuit", dict_get data "address",
                      none, some path, none, none⟩,
           ⟨db.rows ++ [{ mkRecord data now db with pdf_path := some path }], db.nextId + 1⟩)
        | none =>
          (Except.error (Exc.httpExc 500 ("Failed to generate PDF: " ++
              strExc (Exc.httpExc 500 "Failed to generate PDF certificate"))),
           ⟨db.rows ++ [mkRecord data now db], db.nextId + 1⟩)
  else
    -- raise HTTPException(400, "Missing required fields: ...") at main.py:278
    (Except.error (Exc.httpExc 400 ("Missing required fields: " ++
        String.intercalate ", " (missingFields data))), db)

/-- The observable result of `POST /webhook`. -/
inductive WebhookResult where
  | success (resp : EstablishmentResponse)
  | error (status : Nat) (detail : String)
deriving DecidableEq, Repr

/-- `handle_webhook` (main.py:244-347): the `try` body followed by the
`except IntegrityError` handler (409) and the blanket `except Exception`
handler, which wraps whatever reached it — including an `HTTPException`
raised inside the `try` — into a 500 with detail
`f"Failed to process webhook: {str(e)}"`. -/
def handle_webhook (data : Payload) (now : String) (uniqueEnforced : Bool)
    (pdfOutcome : PdfOutcome) (validateRaises : Option String) (db : DB) :
    WebhookResult × DB :=
  match webhookTry data now uniqueEnforced pdfOutcome validateRaises db with
  | (Except.ok resp, db1) => (WebhookResult.success resp, db1)
  | (Except.error Exc.integrityError, db1) =>
      (WebhookResult.error 409 "Establishment with this CUIT or owner email already exists.", db1)
  | (Except.error e, db1) =>
      (WebhookResult.error 500 ("Failed to process webhook: " ++ strExc e), db1)

/-- `GET /establishments` (main.py:369-372): every row, serialized through
`EstablishmentSchema`. -/
def get_establishments (db : DB) : List EstablishmentSchema :=
  db.rows.map toSchema

/-! PDF renderer: the pure layout of the "INFORMACIÓN ADICIONAL DEL
FORMULARIO" section (main.py:186-227), as the list of strings passed to
`drawString`. -/

/-- `excluded_keys = {'name', 'owner_email', 'cuit', 'address'}` (main.py:194). -/
def excluded_keys : List String := ["name", "owner_email", "cuit", "address"]

/-- Python `str.title()` on ASCII text: a letter is uppercased after a
non-letter and lowercased after a letter. -/
def pyTitleAux : Bool → List Char → List Char
  | _, [] => []
  | prevAlpha, c :: cs =>
    (if c.isAlpha then (if prevAlpha then c.toLower else c.toUpper) else c)
      :: pyTitleAux c.isAlpha cs

/-- Python `str.title()`. -/
def pyTitle (s : String) : String := String.mk (pyTitleAux false s.data)

/-- `key.replace('_', ' ')`: with a one-character pattern this is a
per-character substitution. -/
def replaceUnderscores (s : String) : String :=
  String.mk (s.data.map (fun c => if c = '_' then ' ' else c))

/-- `field_name = key.replace('_', ' ').title()` (main.py:199). -/
def mechanicalLabel (k : String) : String := pyTitle (replaceUnderscores k)

/-- Accumulating splitter over characters: words are maximal runs of
non-whitespace. -/
def splitWsAux : List Char → List Char → List String
  | [], acc => if acc.isEmpty then [] else [String.mk acc.reverse]
  | c :: cs, acc =>
    if c.isWhitespace then
      (if acc.isEmpty then [] else [String.mk acc.reverse]) ++ splitWsAux cs []
    else
      splitWsAux cs (c :: acc)

/-- Python `str.split()` with no separator: split on whitespace runs, no empty
words (main.py:205). -/
def pySplit (s : String) : List String := splitWsAux s.data []

/-- Drop leading whitespace characters. -/
def dropWhileWs : List Char → List Char
  | [] => []
  | c :: cs => if c.isWhitespace then dropWhileWs cs else c :: cs

/-- Python `str.strip()` with no argument: remove leading and trailing
whitespace (main.py:212,216,217). -/
def pyStrip (s : String) : String :=
  String.mk ((dropWhileWs ((dropWhileWs s.data).reverse)).reverse)

/-- The word-accumulation loop of main.py:206-215. State: the label still to
be shown (emptied after its first use), the line being accumulated, and the
lines already drawn. A full line is drawn as `f"{field_name}: {line.strip()}"`
— note the f-string keeps the `": "` separator even once `field_name` is the
empty string — and the next line restarts with a two-space indent prefix that
`strip()` later removes again except on the final post-loop draw. -/
def wrapLoop : String → String → List String → List String → String × String × List String
  | fn, cur, out, [] => (fn, cur, out)
  | fn, cur, out, w :: ws =>
    if (cur ++ w).length < 80 then
      wrapLoop fn (cur ++ w ++ " ") out ws
    else if cur = "" then
      wrapLoop fn ("  " ++ w ++ " ") out ws
    else
      wrapLoop "" ("  " ++ w ++ " ") (out ++ [fn ++ ": " ++ pyStrip cur]) ws

/-- The lines drawn for one extra field's value (main.py:201-221): values whose
`str()` exceeds 80 characters go through the word-wrap loop plus the final
draw of main.py:216-218; shorter values are one `f"{field_name}: {value_str}"`
line. -/
def renderValueLines (fieldName valueStr : String) : List String :=
  if valueStr.length > 80 then
    match wrapLoop fieldName "" [] (pySplit valueStr) with
    | (fn, cur, out) =>
      if pyStrip cur = "" then out
      else out ++ [if fn = "" then "  " ++ pyStrip cur else fn ++ ": " ++ pyStrip cur]
  else
    [fieldName ++ ": " ++ valueStr]

/-- The lines drawn for one `(key, value)` pair of the webhook data. -/
def renderField (k : String) (v : Val) : List String :=
  renderValueLines (mechanicalLabel k) (pyStr v)

/-- All lines of the additional-data section: the loop of main.py:196-221,
skipping excluded keys and falsy values. -/
def extraLines (d : Payload) : List String :=
  (d.map (fun kv =>
    if !excluded_keys.contains kv.1 && valTruthy kv.2 then renderField kv.1 kv.2 else [])).flatten

/-! `airtable_service.get_current_price` (airtable_service.py:8-30). -/

/-- A field value of an Airtable record: `float()`-parseable or not
(`float(...)` raises `ValueError` on `junk`). -/
inductive FieldVal where
  | num (q : ℚ)
  | junk
deriving DecidableEq, Repr

/-- `float(x)`: the parsed number, or `none` when `float` would raise. -/
def floatOf : FieldVal → Option ℚ
  | .num q => some q
  | .junk => none

/-- One record returned by `airtable.get_all(...)`: whether it has a `fields`
key, and its fields mapping. -/
structure AirRecord where
  hasFields : Bool
  fields : List (String × FieldVal)
deriving DecidableEq, Repr

/-- The outcome of the Airtable round-trip: an exception anywhere in the
`try`, or the record list for `{Tipo} = 'Inscripcion'`. -/
inductive FetchOutcome where
  | raise
  | ok (records : List AirRecord)
deriving DecidableEq, Repr

/-- `'Valores' in record['fields']` / `record['fields']['Valores']`. -/
def lookupField (fs : List (String × FieldVal)) (k : String) : Option FieldVal :=
  fs.lookup k

/-- Whether a record would satisfy the guard at airtable_service.py:21. -/
def hasValores (r : AirRecord) : Bool :=
  r.hasFields && (lookupField r.fields "Valores").isSome

/-- `10.00`, the hardcoded fallback price (airtable_service.py:27,30). -/
def default_price : ℚ := 10

/-- The `try` body of `get_current_price`: `Except.error` marks a raised
exception (Airtable failure, or `float()` ValueError); the no-record /
missing-field branch returns the default from inside the `try`. -/
def get_current_price_try (outcome : FetchOutcome) : Except String ℚ :=
  match outcome with
  | .raise => Except.error "airtable request failed"
  | .ok records =>
    match records with
    | [] => Except.ok default_price
    | r :: _ =>
      if r.hasFields then
        match lookupField r.fields "Valores" with
        | some v =>
          match floatOf v with
          | some q => Except.ok q
          | none => Except.error "ValueError"
        | none => Except.ok default_price
      else Except.ok default_price

/-- `get_current_price`: the `try` body with the blanket `except Exception`
substituting the default price (airtable_service.py:28-30). -/
def get_current_price (outcome : FetchOutcome) : ℚ :=
  match get_current_price_try outcome with
  | Except.ok q => q
  | Except.error _ => default_price

/-! Concrete fixtures used by witnesses and counterexamples. -/

/-- The spec's example payload, complete. -/
def dataOK : Payload :=
  [("name", Val.s "Campo Norte"), ("owner_email", Val.s "a@b.com"),
   ("cuit", Val.s "20-12345678-9"), ("address", Val.s "Ruta 40 km 10")]

/-- The row a first successful submission of `dataOK` commits into an empty
store. -/
def recDup : Establishment := mkRecord dataOK "2026-01-01" ⟨[], 1⟩

/-- A store already holding that row (as after a first submission). -/
def dbDup : DB := ⟨[recDup], 2⟩

/-- A committed row carrying a raw payload blob. -/
def recC5 : Establishment :=
  { id := 1, name := some (Val.s "Campo Norte"), owner_email := some (Val.s "a@b.com"),
    cuit := some (Val.s "20-12345678-9"), address := some (Val.s "Ruta 40 km 10"),
    payment_link := none, pdf_path := some "pdfs/registro_1.pdf",
    webhook_data := some (jsonDumps dataOK), created_at := "2026-01-01" }

/-- A store holding `recC5`. -/
def dbC5 : DB := ⟨[recC5], 2⟩

/-- A 20-character word. -/
def w20 : String := "aaaaaaaaaaaaaaaaaaaa"

/-- A 167-character value: eight 20-character words. -/
def longValC8 : String := String.intercalate " " (List.replicate 8 w20)

/-- Two schemas agreeing on `id` and nothing else. -/
def edA : EstablishmentSchema :=
  { id := 7, name := some (Val.s "Campo Norte"), owner_email := some (Val.s "a@b.com"),
    cuit := some (Val.s "20-12345678-9"), address := some (Val.s "Ruta 40 km 10"),
    payment_link := none, pdf_path := none, webhook_data := none, created_at := none }

/-- Second schema with the same `id`. -/
def edB : EstablishmentSchema :=
  { id := 7, name := some (Val.s "Otro Campo"), owner_email := none, cuit := none,
    address := none, payment_link := none, pdf_path := none, webhook_data := none,
    created_at := none }

/-! Helper lemmas: branch evaluations of `webhookTry` / `handle_webhook`. -/

/-- The second component of `handle_webhook` is the store state the `try`
body left behind: the `except` handlers only re-raise or translate. -/
theorem handle_webhook_snd (data : Payload) (now : String) (uniq : Bool)
    (p : PdfOutcome) (vr : Option String) (db : DB) :
    (handle_webhook data now uniq p vr db).2 = (webhookTry data now uniq p vr db).2 := by
  unfold handle_webhook
  rcases h : webhookTry data now uniq p vr db with ⟨res, db1⟩
  cases res with
  | ok r => simp
  | error e =>
    cases e with
    | httpExc s d => simp
    | integrityError => simp

/-- Missing-fields branch of the `try` body. -/
theorem webhookTry_missing (data : Payload) (now : String) (uniq : Bool)
    (p : PdfOutcome) (vr : Option String) (db : DB)
    (h : (missingFields data).isEmpty = false) :
    webhookTry data now uniq p vr db =
      (Except.error (Exc.httpExc 400 ("Missing required fields: " ++
        String.intercalate ", " (missingFields data))), db) := by
  unfold webhookTry
  rw [h]
  simp

/-- Conflict branch: the first commit raises `IntegrityError`. -/
theorem webhookTry_conflict (data : Payload) (now : String) (uniq : Bool)
    (p : PdfOutcome) (vr : Option String) (db : DB)
    (h1 : (missingFields data).isEmpty = true)
    (h2 : uniquenessViolation uniq db (mkRecord data now db) = true) :
    webhookTry data now uniq p vr db = (Except.error Exc.integrityError, db) := by
  unfold webhookTry
  rw [h1, h2]
  simp

/-- Inner-`try` exception before the renderer returns: the row is already
committed; the inner handler wraps the message. -/
theorem webhookTry_validateRaise (data : Payload) (now : String) (uniq : Bool)
    (p : PdfOutcome) (msg : String) (db : DB)
    (h1 : (missingFields data).isEmpty = true)
    (h2 : uniquenessViolation uniq db (mkRecord data now db) = false) :
    webhookTry data now uniq p (some msg) db =
      (Except.error (Exc.httpExc 500 ("Failed to generate PDF: " ++ msg)),
       ⟨db.rows ++ [mkRecord data now db], db.nextId + 1⟩) := by
  unfold webhookTry
  rw [h1, h2]
  simp

/-- Renderer-failure branch: `generate_establishment_pdf` returned `None`. -/
theorem webhookTry_renderFail (data : Payload) (now : String) (uniq : Bool)
    (msg : String) (db : DB)
    (h1 : (missingFields data).isEmpty = true)
    (h2 : uniquenessViolation uniq db (mkRecord data now db) = false) :
    webhookTry data now uniq (PdfOutcome.exc msg) none db =
      (Except.error (Exc.httpExc 500 ("Failed to generate PDF: " ++
          strExc (Exc.httpExc 500 "Failed to generate PDF certificate"))),
       ⟨db.rows ++ [mkRecord data now db], db.nextId + 1⟩) := by
  unfold webhookTry
  rw [h1, h2]
  simp [generate_establishment_pdf]

/-- Success branch: both commits succeed and the response mirrors the row. -/
theorem webhookTry_ok (data : Payload) (now : String) (uniq : Bool) (db : DB)
    (h1 : (missingFields data).isEmpty = true)
    (h2 : uniquenessViolation uniq db (mkRecord data now db) = false) :
    webhookTry data now uniq PdfOutcome.ok none db =
      (Except.ok ⟨db.nextId, dict_get data "name", dict_get data "owner_email",
                  dict_get data "cuit", dict_get data "address",
                  none, some (pdf_file_name db.nextId), none, none⟩,
       ⟨db.rows ++ [{ mkRecord data now db with
                        pdf_path := some (pdf_file_name db.nextId) }], db.nextId + 1⟩) := by
  unfold webhookTry
  rw [h1, h2]
  simp [generate_establishment_pdf, toSchema, mkRecord]

/-! Claim theorems. -/

/-- C1: the claim says a submission with a missing required field yields a 400
naming every missing field and creates no record. The code does name every
missing field and creates no record, but the response status is 500, not 400:
the `HTTPException(400)` raised at main.py:278 is intercepted by the
endpoint's own blanket `except Exception` (main.py:339) and re-raised as a 500
wrapping the 400's detail. Evaluated here at the spec's own example input
(only `name` present). -/
theorem c1_missing_fields_wrapped_as_500 :
    handle_webhook [("name", Val.s "Campo Norte")] "2026-01-01" false
        PdfOutcome.ok none ⟨[], 1⟩ =
      (WebhookResult.error 500
        "Failed to process webhook: 400: Missing required fields: owner_email, cuit, address",
       ⟨[], 1⟩) := by
  rfl

/-- C9: `get_current_price` returns the hardcoded default (10.00) whenever the
Airtable fetch raises, or no surviving record carries a `Valores` field; and
whenever the `try` body raises at all (including `float()` ValueError), the
`except` substitutes the default rather than propagating — the function never
raises to its caller. -/
theorem c9_price_fallback_default (o : FetchOutcome) :
    ((o = FetchOutcome.raise ∨
        ∃ rs, o = FetchOutcome.ok rs ∧ rs.all (fun r => !hasValores r) = true) →
      get_current_price o = default_price) ∧
    (∀ e, get_current_price_try o = Except.error e → get_current_price o = default_price) := by
  constructor
  · rintro (rfl | ⟨rs, rfl, hall⟩)
    · rfl
    · cases rs with
      | nil => rfl
      | cons r rs' =>
        have hr : (!hasValores r) = true := by
          have := List.all_eq_true.mp hall
          exact this r (List.mem_cons_self r rs')
        rw [Bool.not_eq_true'] at hr
        unfold hasValores at hr
        cases hf : r.hasFields with
        | false => simp [get_current_price, get_current_price_try, hf]
        | true =>
          cases hl : lookupField r.fields "Valores" with
          | none => simp [get_current_price, get_current_price_try, hf, hl]
          | some v =>
            rw [hf, hl] at hr
            simp at hr
  · intro e h
    simp [get_current_price, h]

/-- Witness for C9 at the concrete raising outcome. -/
theorem c9_price_fallback_default_witness :
    get_current_price FetchOutcome.raise = default_price :=
  (c9_price_fallback_default FetchOutcome.raise).1 (Or.inl rfl)

/-- C10: on success the renderer returns the path derived deterministically
from the record id — `pdfs/registro_<id>.pdf` — and any two records with the
same id target the same path, so regeneration overwrites rather than
duplicates. -/
theorem c10_pdf_path_deterministic (ed : EstablishmentSchema) :
    generate_establishment_pdf ed PdfOutcome.ok =
      some ("pdfs/registro_" ++ toString ed.id ++ ".pdf") ∧
    ∀ ed2 : EstablishmentSchema, ed2.id = ed.id →
      generate_establishment_pdf ed2 PdfOutcome.ok =
        generate_establishment_pdf ed PdfOutcome.ok := by
  constructor
  · rfl
  · intro ed2 h
    simp [generate_establishment_pdf, pdf_file_name, h]

/-- Witness for C10: two schemas sharing only the id render to the same path. -/
theorem c10_pdf_path_deterministic_witness :
    generate_establishment_pdf edA PdfOutcome.ok =
      some ("pdfs/registro_" ++ toString edA.id ++ ".pdf") ∧
    generate_establishment_pdf edB PdfOutcome.ok =
      generate_establishment_pdf edA PdfOutcome.ok :=
  ⟨(c10_pdf_path_deterministic edA).1,
   (c10_pdf_path_deterministic edA).2 edB (by decide)⟩

/-- C2: when the record has been committed but PDF rendering then fails — the
renderer returns `None`, or the inner `try` raises — the endpoint reports an
error (500) to the caller, yet the committed row still exists in the store
with `pdf_path` unset: the first commit is not rolled back and no retry
happens (the store gains exactly that one row). -/
theorem c2_render_failure_record_persists (data : Payload) (now : String)
    (uniq : Bool) (pdfOutcome : PdfOutcome) (vr : Option String) (db : DB)
    (hmiss : (missingFields data).isEmpty = true)
    (hviol : uniquenessViolation uniq db (mkRecord data now db) = false)
    (hfail : ¬(pdfOutcome = PdfOutcome.ok ∧ vr = none)) :
    (∃ detail, (handle_webhook data now uniq pdfOutcome vr db).1 =
        WebhookResult.error 500 detail) ∧
    (handle_webhook data now uniq pdfOutcome vr db).2.rows =
      db.rows ++ [mkRecord data now db] ∧
    (mkRecord data now db).pdf_path = none := by
  cases vr with
  | some msg =>
    refine ⟨⟨"Failed to process webhook: " ++
              strExc (Exc.httpExc 500 ("Failed to generate PDF: " ++ msg)), ?_⟩, ?_, rfl⟩
    · simp [handle_webhook, webhookTry_validateRaise data now uniq pdfOutcome msg db hmiss hviol]
    · rw [handle_webhook_snd, webhookTry_validateRaise data now uniq pdfOutcome msg db hmiss hviol]
  | none =>
    cases pdfOutcome with
    | ok => exact absurd ⟨rfl, rfl⟩ hfail
    | exc msg =>
      refine ⟨⟨"Failed to process webhook: " ++
                strExc (Exc.httpExc 500 ("Failed to generate PDF: " ++
                  strExc (Exc.httpExc 500 "Failed to generate PDF certificate"))), ?_⟩, ?_, rfl⟩
      · simp [handle_webhook, webhookTry_renderFail data now uniq msg db hmiss hviol]
      · rw [handle_webhook_snd, webhookTry_renderFail data now uniq msg db hmiss hviol]

/-- Witness for C2: a concrete valid payload whose render raises. -/
theorem c2_render_failure_record_persists_witness :
    (∃ detail, (handle_webhook dataOK "t" false (PdfOutcome.exc "boom") none ⟨[], 1⟩).1 =
        WebhookResult.error 500 detail) ∧
    (handle_webhook dataOK "t" false (PdfOutcome.exc "boom") none ⟨[], 1⟩).2.rows =
      (⟨[], 1⟩ : DB).rows ++ [mkRecord dataOK "t" ⟨[], 1⟩] ∧
    (mkRecord dataOK "t" ⟨[], 1⟩).pdf_path = none :=
  c2_render_failure_record_persists dataOK "t" false (PdfOutcome.exc "boom") none ⟨[], 1⟩
    (by decide) (by decide) (by decide)

/-- C3: any record the webhook pipeline adds to the store with a non-null
`pdf_path` got it from a render that completed without error — `pdf_path` is
assigned only from a `some` return of `generate_establishment_pdf`, and
`generate_establishment_pdf` returns `none` whenever a rendering exception
occurs. -/
theorem c3_pdf_path_implies_render_ok (data : Payload) (now : String)
    (uniq : Bool) (p : PdfOutcome) (vr : Option String) (db : DB) :
    (∀ rec : Establishment,
        rec ∈ (handle_webhook data now uniq p vr db).2.rows → rec ∉ db.rows →
        rec.pdf_path.isSome = true →
          p = PdfOutcome.ok ∧ vr = none ∧
          rec.pdf_path = generate_establishment_pdf (toSchema (mkRecord data now db)) p) ∧
    (∀ ed msg, generate_establishment_pdf ed (PdfOutcome.exc msg) = none) := by
  constructor
  · intro rec hmem hnew hsome
    rw [handle_webhook_snd] at hmem
    by_cases h1 : (missingFields data).isEmpty = true
    · by_cases h2 : uniquenessViolation uniq db (mkRecord data now db) = true
      · rw [webhookTry_conflict data now uniq p vr db h1 h2] at hmem
        exact absurd hmem hnew
      · rw [Bool.not_eq_true] at h2
        cases vr with
        | some msg =>
          rw [webhookTry_validateRaise data now uniq p msg db h1 h2] at hmem
          rcases List.mem_append.mp hmem with h | h
          · exact absurd h hnew
          · rw [List.mem_singleton] at h
            subst h
            simp [mkRecord] at hsome
        | none =>
          cases p with
          | exc msg =>
            rw [webhookTry_renderFail data now uniq msg db h1 h2] at hmem
            rcases List.mem_append.mp hmem with h | h
            · exact absurd h hnew
            · rw [List.mem_singleton] at h
              subst h
              simp [mkRecord] at hsome
          | ok =>
            rw [webhookTry_ok data now uniq db h1 h2] at hmem
            rcases List.mem_append.mp hmem with h | h
            · exact absurd h hnew
            · rw [List.mem_singleton] at h
              subst h
              exact ⟨rfl, rfl, rfl⟩
    · rw [Bool.not_eq_true] at h1
      rw [webhookTry_missing data now uniq p vr db h1] at hmem
      exact absurd hmem hnew
  · intro ed msg
    rfl

/-- Witness for C3: the record committed by a successful run carries exactly
the renderer's returned path. -/
theorem c3_pdf_path_implies_render_ok_witness :
    PdfOutcome.ok = PdfOutcome.ok ∧ (none : Option String) = none ∧
    ({ mkRecord dataOK "t" ⟨[], 1⟩ with
        pdf_path := some (pdf_file_name 1) } : Establishment).pdf_path =
      generate_establishment_pdf (toSchema (mkRecord dataOK "t" ⟨[], 1⟩)) PdfOutcome.ok :=
  (c3_pdf_path_implies_render_ok dataOK "t" false PdfOutcome.ok none ⟨[], 1⟩).1
    { mkRecord dataOK "t" ⟨[], 1⟩ with pdf_path := some (pdf_file_name 1) }
    (by decide) (by decide) (by decide)

/-- C4: when the INSERT violates an enforced uniqueness constraint (an
existing row already has this `owner_email` or `cuit`), the commit's
`IntegrityError` is caught, the request ends as a 409 conflict, and the store
is unchanged — no new record persists. In the shipped `database.py` no unique
constraint is declared, so the hypothesis only holds in the
uniqueness-enforcing revisions the claim quantifies over. -/
theorem c4_integrity_conflict (data : Payload) (now : String)
    (p : PdfOutcome) (vr : Option String) (db : DB)
    (hmiss : (missingFields data).isEmpty = true)
    (hviol : uniquenessViolation true db (mkRecord data now db) = true) :
    handle_webhook data now true p vr db =
      (WebhookResult.error 409 "Establishment with this CUIT or owner email already exists.",
       db) := by
  unfold handle_webhook
  rw [webhookTry_conflict data now true p vr db hmiss hviol]

/-- Witness for C4: re-submitting the identical payload against a store that
already holds its row yields 409 and leaves the store unchanged. -/
theorem c4_integrity_conflict_witness :
    handle_webhook dataOK "2026-02-02" true PdfOutcome.ok none dbDup =
      (WebhookResult.error 409 "Establishment with this CUIT or owner email already exists.",
       dbDup) :=
  c4_integrity_conflict dataOK "2026-02-02" PdfOutcome.ok none dbDup (by decide) (by decide)

/-- C5 counterexample: the claim says `GET /establishments` returns core
fields only and does not expose the raw payload blob. But the endpoint's
response model is the full `EstablishmentSchema`, which includes
`webhook_data`: a store holding one row with a blob serializes that blob into
the listing. -/
theorem c5_webhook_data_exposed :
    ∃ s, s ∈ get_establishments dbC5 ∧ s.webhook_data ≠ none :=
  ⟨toSchema recC5, by decide, by decide⟩

/-- C5 amended: `GET /establishments` returns every record serialized with
the full `EstablishmentSchema` — id, the four core fields, `payment_link`,
`pdf_path`, `created_at` and the raw `webhook_data` blob included; no separate
`/establishments/full` route exists in this revision. -/
theorem c5_full_schema_returned (db : DB) (rec : Establishment)
    (hmem : rec ∈ db.rows) :
    ∃ s, s ∈ get_establishments db ∧ s.id = rec.id ∧ s.name = rec.name ∧
      s.owner_email = rec.owner_email ∧ s.cuit = rec.cuit ∧ s.address = rec.address ∧
      s.pdf_path = rec.pdf_path ∧ s.webhook_data = rec.webhook_data :=
  ⟨toSchema rec, List.mem_map_of_mem toSchema hmem, rfl, rfl, rfl, rfl, rfl, rfl, rfl⟩

/-- Witness for the amended C5 at the concrete store. -/
theorem c5_full_schema_returned_witness :
    ∃ s, s ∈ get_establishments dbC5 ∧ s.id = recC5.id ∧ s.name = recC5.name ∧
      s.owner_email = recC5.owner_email ∧ s.cuit = recC5.cuit ∧
      s.address = recC5.address ∧ s.pdf_path = recC5.pdf_path ∧
      s.webhook_data = recC5.webhook_data :=
  c5_full_schema_returned dbC5 recC5 (by decide)

/-- C6 counterexample: the claim describes the exclusion set as the four
mapped core keys *plus known noise keys such as anti-forgery tokens*, so a
Fluent Forms nonce key would produce no line. The code's `excluded_keys` is
only the four core keys: the nonce key is rendered (with the mechanical
label, underscore → space artifacts included). -/
theorem c6_nonce_key_rendered :
    extraLines [("_fluentform_1_fluentformnonce", Val.s "abc")] ≠ [] ∧
    extraLines [("_fluentform_1_fluentformnonce", Val.s "abc")] =
      [" Fluentform 1 Fluentformnonce: abc"] := by
  decide

/-- C6 amended: for every key of the raw submission outside the exclusion set
— which is exactly the four mapped core keys, with no noise-key exclusion —
whose value is non-empty (and whose string form fits one line), the renderer
prints `label: value` where the label is always the mechanical
transformation of the key (underscores → spaces, title case); there is no
human-readable dictionary lookup. -/
theorem c6_extra_key_rendered_mechanical (d : Payload) (k : String) (v : Val)
    (hmem : (k, v) ∈ d)
    (hk : excluded_keys.contains k = false)
    (hv : valTruthy v = true)
    (hlen : (pyStr v).length ≤ 80) :
    mechanicalLabel k ++ ": " ++ pyStr v ∈ extraLines d := by
  induction d with
  | nil => cases hmem
  | cons hd tl ih =>
    have hstep : extraLines (hd :: tl) =
        (if !excluded_keys.contains hd.1 && valTruthy hd.2 then
          renderField hd.1 hd.2 else []) ++ extraLines tl := rfl
    rw [hstep]
    rw [List.mem_cons] at hmem
    rcases hmem with hmem | hmem
    · obtain rfl := hmem.symm
      rw [hk, hv]
      have h80 : ¬((pyStr v).length > 80) := by omega
      simp only [Bool.not_false, Bool.and_self, if_true, renderField, renderValueLines,
        if_neg h80]
      exact List.mem_append_left _ (List.mem_cons_self _ _)
    · exact List.mem_append_right _ (ih hmem)

/-- Witness for the amended C6 at a concrete extra field. -/
theorem c6_extra_key_rendered_mechanical_witness :
    mechanicalLabel "telefono_contacto" ++ ": " ++ pyStr (Val.s "299-5551234") ∈
      extraLines [("telefono_contacto", Val.s "299-5551234")] :=
  c6_extra_key_rendered_mechanical [("telefono_contacto", Val.s "299-5551234")]
    "telefono_contacto" (Val.s "299-5551234") (by decide) (by decide) (by decide) (by decide)

/-- C7 counterexample: the claim says a multi-select (list) value renders as
its elements joined with comma-and-space. The code applies Python `str()` to
the list, so the rendered value keeps brackets and per-element quotes: the
plain join never appears. -/
theorem c7_list_value_not_plain_joined :
    renderField "especies" (Val.l ["Jabali", "Ciervo"]) ≠
      ["Especies: Jabali, Ciervo"] ∧
    renderField "especies" (Val.l ["Jabali", "Ciervo"]) =
      ["Especies: " ++ ("[" ++ squote ++ "Jabali" ++ squote ++ ", " ++
        squote ++ "Ciervo" ++ squote ++ "]")] := by
  decide

/-- C7 amended: a sequence-valued extra field renders through Python
`str(value)`: the elements are each wrapped in single quotes, separated by
comma-and-space, and enclosed in square brackets (one line when it fits the
80-character threshold). -/
theorem c7_list_value_python_str (k : String) (xs : List String)
    (hlen : (pyStr (Val.l xs)).length ≤ 80) :
    renderField k (Val.l xs) =
      [mechanicalLabel k ++ ": " ++
        ("[" ++ String.intercalate ", " (xs.map (fun x => squote ++ x ++ squote)) ++ "]")] := by
  have h80 : ¬((pyStr (Val.l xs)).length > 80) := by omega
  simp only [renderField, renderValueLines, if_neg h80]
  rfl

/-- Witness for the amended C7 at a concrete two-element multi-select. -/
theorem c7_list_value_python_str_witness :
    renderField "especies" (Val.l ["Jabali", "Ciervo"]) =
      [mechanicalLabel "especies" ++ ": " ++
        ("[" ++ String.intercalate ", "
          ((["Jabali", "Ciervo"]).map (fun x => squote ++ x ++ squote)) ++ "]")] :=
  c7_list_value_python_str "especies" ["Jabali", "Ciervo"] (by decide)

/-- Shape of a continuation line produced by the wrap code: either the
`": "`-led line the emptied f-string label leaves behind (main.py:212), or the
two-space-indented final line (main.py:217). -/
def contLine (line : String) : Prop :=
  (∃ r, line = ": " ++ r) ∨ (∃ r, line = "  " ++ r)

/-- Loop invariant of `wrapLoop`: once a first line has been emitted the label
is empty, and every emitted line after the first is a continuation line. -/
theorem wrapLoop_inv (ws : List String) (fn cur : String) (out : List String)
    (h1 : out ≠ [] → fn = "")
    (h2 : ∀ line ∈ out.tail, contLine line) :
    ((wrapLoop fn cur out ws).2.2 ≠ [] → (wrapLoop fn cur out ws).1 = "") ∧
    (∀ line ∈ (wrapLoop fn cur out ws).2.2.tail, contLine line) := by
  induction ws generalizing fn cur out with
  | nil => exact ⟨h1, h2⟩
  | cons w ws ih =>
    simp only [wrapLoop]
    by_cases hlt : (cur ++ w).length < 80
    · rw [if_pos hlt]
      exact ih fn (cur ++ w ++ " ") out h1 h2
    · rw [if_neg hlt]
      by_cases hcur : cur = ""
      · rw [if_pos hcur]
        exact ih fn ("  " ++ w ++ " ") out h1 h2
      · rw [if_neg hcur]
        apply ih "" ("  " ++ w ++ " ") (out ++ [fn ++ ": " ++ pyStrip cur])
        · intro _
          rfl
        · intro line hline
          cases out with
          | nil => simp at hline
          | cons a t =>
            have ht : ((a :: t) ++ [fn ++ ": " ++ pyStrip cur]).tail =
                t ++ [fn ++ ": " ++ pyStrip cur] := rfl
            rw [ht] at hline
            rcases List.mem_append.mp hline with h | h
            · exact h2 line h
            · rw [List.mem_singleton] at h
              subst h
              left
              refine ⟨pyStrip cur, ?_⟩
              rw [h1 (by simp)]
              rfl

set_option maxRecDepth 100000 in
/-- C8 counterexample: the claim says every continuation line of a wrapped
long value is indented. For a 167-character value of eight 20-character
words, the renderer emits three lines and the middle one begins with `":"`,
not an indent: the in-loop draw `f"{field_name}: ..."` keeps the colon
separator after the label has been emptied, and only the final post-loop line
gets the two-space indent. -/
theorem c8_middle_continuation_not_indented :
    longValC8.length > 80 ∧
    (renderValueLines "Observaciones" longValC8).length = 3 ∧
    ((renderValueLines "Observaciones" longValC8).get? 1).getD "" =
      ": " ++ String.intercalate " " (List.replicate 3 w20) ∧
    (((renderValueLines "Observaciones" longValC8).get? 1).getD "").data.head? =
      some (Char.ofNat 58) := by
  decide

/-- C8 amended: a value whose string form is at most 80 characters is printed
on a single `label: value` line; for longer values the label appears only on
the first emitted line, and every later line is a continuation line that is
either `": "`-led (intermediate lines of the loop) or two-space-indented (the
final line) — not, as claimed, always indented. -/
theorem c8_wrap_structure (label value : String) :
    (value.length ≤ 80 → renderValueLines label value = [label ++ ": " ++ value]) ∧
    (∀ line ∈ (renderValueLines label value).tail, contLine line) := by
  constructor
  · intro h
    have h80 : ¬(value.length > 80) := by omega
    simp only [renderValueLines, if_neg h80]
  · intro line hline
    by_cases h80 : value.length > 80
    · have hh := wrapLoop_inv (pySplit value) label "" [] (by simp) (by simp)
      simp only [renderValueLines, if_pos h80] at hline
      rcases hw : wrapLoop label "" [] (pySplit value) with ⟨fn, cur, out⟩
      rw [hw] at hline hh
      dsimp only at hline hh
      by_cases hc : pyStrip cur = ""
      · rw [if_pos hc] at hline
        exact hh.2 line hline
      · rw [if_neg hc] at hline
        cases out with
        | nil => simp at hline
        | cons a t =>
          have ht : ((a :: t) ++
              [if fn = "" then "  " ++ pyStrip cur else fn ++ ": " ++ pyStrip cur]).tail =
              t ++ [if fn = "" then "  " ++ pyStrip cur else fn ++ ": " ++ pyStrip cur] := rfl
          rw [ht] at hline
          rcases List.mem_append.mp hline with h | h
          · exact hh.2 line h
          · rw [List.mem_singleton] at h
            subst h
            rw [if_pos (hh.1 (by simp))]
            right
            exact ⟨pyStrip cur, rfl⟩
    · simp only [renderValueLines, if_neg h80] at hline
      simp at hline

/-- Witness for C8: a short value prints as the single labelled line. -/
theorem c8_wrap_structure_witness :
    renderValueLines "Especie" "Jabali" = ["Especie" ++ ": " ++ "Jabali"] :=
  (c8_wrap_structure "Especie" "Jabali").1 (by decide)
